import Mathlib

/-!
# The enumeration constants of `githubql/enum.go`

`enum.go` is a generated file of package `githubql`.  It consists of forty-odd
pairs of top-level declarations: a named string type, followed by one
parenthesised `const` group that lists the typed string constants of that type.

The file is embedded as the list `enumGo` of its top-level declarations, in
source order.  Every identifier, string literal and comment is kept verbatim.
The enumeration registry (type name ↦ ordered members) is computed from that
list, and the lookup operations are defined over the registry.
-/

namespace Githubql

/-! ## Declarations of the file -/

/-- One line of a `const ( ... )` group: `Name Type = "VALUE" // doc`. -/
structure ConstSpec where
  /-- Identifier of the constant. -/
  name : String
  /-- Declared type of the constant. -/
  typ : String
  /-- String literal the constant is bound to. -/
  value : String
  /-- Trailing line comment. -/
  doc : String
  deriving DecidableEq, Repr

/-- The kinds of top-level declaration a Go file can hold.  A type declaration
`type Name Underlying` carries the comment above it; a constant group carries
the comment above it and its lines. -/
inductive Decl where
  | typeDecl (name underlying doc : String)
  | constDecl (doc : String) (specs : List ConstSpec)
  | varDecl (name : String)
  | funcDecl (name : String)
  deriving DecidableEq, Repr

/-- The top-level declarations of `enum.go`, in source order. -/
def enumGo : List Decl := [
  Decl.typeDecl "CommentAuthorAssociation" "string"
    "CommentAuthorAssociation represents a comment author association with repository.",
  Decl.constDecl "A comment author association with repository." [
    ConstSpec.mk "CommentAuthorAssociationMember" "CommentAuthorAssociation" "MEMBER"
      "Author is a member of the organization that owns the repository.",
    ConstSpec.mk "CommentAuthorAssociationOwner" "CommentAuthorAssociation" "OWNER"
      "Author is the owner of the repository.",
    ConstSpec.mk "CommentAuthorAssociationCollaborator" "CommentAuthorAssociation" "COLLABORATOR"
      "Author has been invited to collaborate on the repository.",
    ConstSpec.mk "CommentAuthorAssociationContributor" "CommentAuthorAssociation" "CONTRIBUTOR"
      "Author has previously committed to the repository.",
    ConstSpec.mk "CommentAuthorAssociationFirstTimeContributor" "CommentAuthorAssociation" "FIRST_TIME_CONTRIBUTOR"
      "Author has not previously committed to the repository.",
    ConstSpec.mk "CommentAuthorAssociationFirstTimer" "CommentAuthorAssociation" "FIRST_TIMER"
      "Author has not previously committed to GitHub.",
    ConstSpec.mk "CommentAuthorAssociationNone" "CommentAuthorAssociation" "NONE"
      "Author has no association with the repository."],
  Decl.typeDecl "CommentCannotUpdateReason" "string"
    "CommentCannotUpdateReason represents the possible errors that will prevent a user from updating a comment.",
  Decl.constDecl "The possible errors that will prevent a user from updating a comment." [
    ConstSpec.mk "CommentCannotUpdateReasonInsufficientAccess" "CommentCannotUpdateReason" "INSUFFICIENT_ACCESS"
      "You must be the author or have write access to this repository to update this comment.",
    ConstSpec.mk "CommentCannotUpdateReasonLocked" "CommentCannotUpdateReason" "LOCKED"
      "Unable to create comment because issue is locked.",
    ConstSpec.mk "CommentCannotUpdateReasonLoginRequired" "CommentCannotUpdateReason" "LOGIN_REQUIRED"
      "You must be logged in to update this comment.",
    ConstSpec.mk "CommentCannotUpdateReasonMaintenance" "CommentCannotUpdateReason" "MAINTENANCE"
      "Repository is under maintenance.",
    ConstSpec.mk "CommentCannotUpdateReasonVerifiedEmailRequired" "CommentCannotUpdateReason" "VERIFIED_EMAIL_REQUIRED"
      "At least one email address must be verified to update this comment."],
  Decl.typeDecl "DefaultRepositoryPermissionField" "string"
    "DefaultRepositoryPermissionField represents the possible default permissions for organization-owned repositories.",
  Decl.constDecl "The possible default permissions for organization-owned repositories." [
    ConstSpec.mk "DefaultRepositoryPermissionFieldRead" "DefaultRepositoryPermissionField" "READ"
      "Members have read access to org repos by default.",
    ConstSpec.mk "DefaultRepositoryPermissionFieldWrite" "DefaultRepositoryPermissionField" "WRITE"
      "Members have read and write access to org repos by default.",
    ConstSpec.mk "DefaultRepositoryPermissionFieldAdmin" "DefaultRepositoryPermissionField" "ADMIN"
      "Members have read, write, and admin access to org repos by default."],
  Decl.typeDecl "DeploymentState" "string"
    "DeploymentState represents the possible states in which a deployment can be.",
  Decl.constDecl "The possible states in which a deployment can be." [
    ConstSpec.mk "DeploymentStateAbandoned" "DeploymentState" "ABANDONED"
      "The pending deployment was not updated after 30 minutes.",
    ConstSpec.mk "DeploymentStateActive" "DeploymentState" "ACTIVE"
      "The deployment is currently active.",
    ConstSpec.mk "DeploymentStateDestroyed" "DeploymentState" "DESTROYED"
      "An inactive transient deployment.",
    ConstSpec.mk "DeploymentStateError" "DeploymentState" "ERROR"
      "The deployment experienced an error.",
    ConstSpec.mk "DeploymentStateFailure" "DeploymentState" "FAILURE"
      "The deployment has failed.",
    ConstSpec.mk "DeploymentStateInactive" "DeploymentState" "INACTIVE"
      "The deployment is inactive.",
    ConstSpec.mk "DeploymentStatePending" "DeploymentState" "PENDING"
      "The deployment is pending."],
  Decl.typeDecl "DeploymentStatusState" "string"
    "DeploymentStatusState represents the possible states for a deployment status.",
  Decl.constDecl "The possible states for a deployment status." [
    ConstSpec.mk "DeploymentStatusStatePending" "DeploymentStatusState" "PENDING"
      "The deployment is pending.",
    ConstSpec.mk "DeploymentStatusStateSuccess" "DeploymentStatusState" "SUCCESS"
      "The deployment was successful.",
    ConstSpec.mk "DeploymentStatusStateFailure" "DeploymentStatusState" "FAILURE"
      "The deployment has failed.",
    ConstSpec.mk "DeploymentStatusStateInactive" "DeploymentStatusState" "INACTIVE"
      "The deployment is inactive.",
    ConstSpec.mk "DeploymentStatusStateError" "DeploymentStatusState" "ERROR"
      "The deployment experienced an error."],
  Decl.typeDecl "GistOrderField" "string"
    "GistOrderField represents properties by which gist connections can be ordered.",
  Decl.constDecl "Properties by which gist connections can be ordered." [
    ConstSpec.mk "GistOrderFieldCreatedAt" "GistOrderField" "CREATED_AT"
      "Order gists by creation time.",
    ConstSpec.mk "GistOrderFieldUpdatedAt" "GistOrderField" "UPDATED_AT"
      "Order gists by update time.",
    ConstSpec.mk "GistOrderFieldPushedAt" "GistOrderField" "PUSHED_AT"
      "Order gists by push time."],
  Decl.typeDecl "GistPrivacy" "string"
    "GistPrivacy represents the privacy of a Gist.",
  Decl.constDecl "The privacy of a Gist." [
    ConstSpec.mk "GistPrivacyPublic" "GistPrivacy" "PUBLIC"
      "Public.",
    ConstSpec.mk "GistPrivacySecret" "GistPrivacy" "SECRET"
      "Secret.",
    ConstSpec.mk "GistPrivacyAll" "GistPrivacy" "ALL"
      "Gists that are public and secret."],
  Decl.typeDecl "GitSignatureState" "string"
    "GitSignatureState represents the state of a Git signature.",
  Decl.constDecl "The state of a Git signature." [
    ConstSpec.mk "GitSignatureStateValid" "GitSignatureState" "VALID"
      "Valid signature and verified by GitHub.",
    ConstSpec.mk "GitSignatureStateInvalid" "GitSignatureState" "INVALID"
      "Invalid signature.",
    ConstSpec.mk "GitSignatureStateMalformedSig" "GitSignatureState" "MALFORMED_SIG"
      "Malformed signature.",
    ConstSpec.mk "GitSignatureStateUnknownKey" "GitSignatureState" "UNKNOWN_KEY"
      "Key used for signing not known to GitHub.",
    ConstSpec.mk "GitSignatureStateBadEmail" "GitSignatureState" "BAD_EMAIL"
      "Invalid email used for signing.",
    ConstSpec.mk "GitSignatureStateUnverifiedEmail" "GitSignatureState" "UNVERIFIED_EMAIL"
      "Email used for signing unverified on GitHub.",
    ConstSpec.mk "GitSignatureStateNoUser" "GitSignatureState" "NO_USER"
      "Email used for signing not known to GitHub.",
    ConstSpec.mk "GitSignatureStateUnknownSigType" "GitSignatureState" "UNKNOWN_SIG_TYPE"
      "Unknown signature type.",
    ConstSpec.mk "GitSignatureStateUnsigned" "GitSignatureState" "UNSIGNED"
      "Unsigned.",
    ConstSpec.mk "GitSignatureStateGpgverifyUnavailable" "GitSignatureState" "GPGVERIFY_UNAVAILABLE"
      "Internal error - the GPG verification service is unavailable at the moment.",
    ConstSpec.mk "GitSignatureStateGpgverifyError" "GitSignatureState" "GPGVERIFY_ERROR"
      "Internal error - the GPG verification service misbehaved.",
    ConstSpec.mk "GitSignatureStateNotSigningKey" "GitSignatureState" "NOT_SIGNING_KEY"
      "The usage flags for the key that signed this don't allow signing.",
    ConstSpec.mk "GitSignatureStateExpiredKey" "GitSignatureState" "EXPIRED_KEY"
      "Signing key expired."],
  Decl.typeDecl "IssueOrderField" "string"
    "IssueOrderField represents properties by which issue connections can be ordered.",
  Decl.constDecl "Properties by which issue connections can be ordered." [
    ConstSpec.mk "IssueOrderFieldCreatedAt" "IssueOrderField" "CREATED_AT"
      "Order issues by creation time.",
    ConstSpec.mk "IssueOrderFieldUpdatedAt" "IssueOrderField" "UPDATED_AT"
      "Order issues by update time.",
    ConstSpec.mk "IssueOrderFieldComments" "IssueOrderField" "COMMENTS"
      "Order issues by comment count."],
  Decl.typeDecl "IssuePubSubTopic" "string"
    "IssuePubSubTopic represents the possible PubSub channels for an issue.",
  Decl.constDecl "The possible PubSub channels for an issue." [
    ConstSpec.mk "IssuePubSubTopicUpdated" "IssuePubSubTopic" "UPDATED"
      "The channel ID for observing issue updates.",
    ConstSpec.mk "IssuePubSubTopicMarkasread" "IssuePubSubTopic" "MARKASREAD"
      "The channel ID for marking an issue as read."],
  Decl.typeDecl "IssueState" "string"
    "IssueState represents the possible states of an issue.",
  Decl.constDecl "The possible states of an issue." [
    ConstSpec.mk "IssueStateOpen" "IssueState" "OPEN"
      "An issue that is still open.",
    ConstSpec.mk "IssueStateClosed" "IssueState" "CLOSED"
      "An issue that has been closed."],
  Decl.typeDecl "LanguageOrderField" "string"
    "LanguageOrderField represents properties by which language connections can be ordered.",
  Decl.constDecl "Properties by which language connections can be ordered." [
    ConstSpec.mk "LanguageOrderFieldSize" "LanguageOrderField" "SIZE"
      "Order languages by the size of all files containing the language."],
  Decl.typeDecl "MergeableState" "string"
    "MergeableState represents whether or not a PullRequest can be merged.",
  Decl.constDecl "Whether or not a PullRequest can be merged." [
    ConstSpec.mk "MergeableStateMergeable" "MergeableState" "MERGEABLE"
      "The pull request can be merged.",
    ConstSpec.mk "MergeableStateConflicting" "MergeableState" "CONFLICTING"
      "The pull request cannot be merged due to merge conflicts.",
    ConstSpec.mk "MergeableStateUnknown" "MergeableState" "UNKNOWN"
      "The mergeability of the pull request is still being calculated."],
  Decl.typeDecl "MilestoneState" "string"
    "MilestoneState represents the possible states of a milestone.",
  Decl.constDecl "The possible states of a milestone." [
    ConstSpec.mk "MilestoneStateOpen" "MilestoneState" "OPEN"
      "A milestone that is still open.",
    ConstSpec.mk "MilestoneStateClosed" "MilestoneState" "CLOSED"
      "A milestone that has been closed."],
  Decl.typeDecl "OrderDirection" "string"
    "OrderDirection represents possible directions in which to order a list of items when provided an `orderBy` argument.",
  Decl.constDecl "Possible directions in which to order a list of items when provided an `orderBy` argument." [
    ConstSpec.mk "OrderDirectionAsc" "OrderDirection" "ASC"
      "Specifies an ascending order for a given `orderBy` argument.",
    ConstSpec.mk "OrderDirectionDesc" "OrderDirection" "DESC"
      "Specifies a descending order for a given `orderBy` argument."],
  Decl.typeDecl "OrganizationInvitationRole" "string"
    "OrganizationInvitationRole represents the possible organization invitation roles.",
  Decl.constDecl "The possible organization invitation roles." [
    ConstSpec.mk "OrganizationInvitationRoleDirectMember" "OrganizationInvitationRole" "DIRECT_MEMBER"
      "The user is invited to be a direct member of the organization.",
    ConstSpec.mk "OrganizationInvitationRoleAdmin" "OrganizationInvitationRole" "ADMIN"
      "The user is invited to be an admin of the organization.",
    ConstSpec.mk "OrganizationInvitationRoleBillingManager" "OrganizationInvitationRole" "BILLING_MANAGER"
      "The user is invited to be a billing manager of the organization.",
    ConstSpec.mk "OrganizationInvitationRoleReinstate" "OrganizationInvitationRole" "REINSTATE"
      "The user's previous role will be reinstated."],
  Decl.typeDecl "ProjectCardState" "string"
    "ProjectCardState represents various content states of a ProjectCard.",
  Decl.constDecl "Various content states of a ProjectCard." [
    ConstSpec.mk "ProjectCardStateContentOnly" "ProjectCardState" "CONTENT_ONLY"
      "The card has content only.",
    ConstSpec.mk "ProjectCardStateNoteOnly" "ProjectCardState" "NOTE_ONLY"
      "The card has a note only.",
    ConstSpec.mk "ProjectCardStateRedacted" "ProjectCardState" "REDACTED"
      "The card is redacted."],
  Decl.typeDecl "ProjectOrderField" "string"
    "ProjectOrderField represents properties by which project connections can be ordered.",
  Decl.constDecl "Properties by which project connections can be ordered." [
    ConstSpec.mk "ProjectOrderFieldCreatedAt" "ProjectOrderField" "CREATED_AT"
      "Order projects by creation time.",
    ConstSpec.mk "ProjectOrderFieldUpdatedAt" "ProjectOrderField" "UPDATED_AT"
      "Order projects by update time.",
    ConstSpec.mk "ProjectOrderFieldName" "ProjectOrderField" "NAME"
      "Order projects by name."],
  Decl.typeDecl "ProjectState" "string"
    "ProjectState represents state of the project; either 'open' or 'closed'.",
  Decl.constDecl "State of the project; either 'open' or 'closed'." [
    ConstSpec.mk "ProjectStateOpen" "ProjectState" "OPEN"
      "The project is open.",
    ConstSpec.mk "ProjectStateClosed" "ProjectState" "CLOSED"
      "The project is closed."],
  Decl.typeDecl "PullRequestPubSubTopic" "string"
    "PullRequestPubSubTopic represents the possible PubSub channels for a pull request.",
  Decl.constDecl "The possible PubSub channels for a pull request." [
    ConstSpec.mk "PullRequestPubSubTopicUpdated" "PullRequestPubSubTopic" "UPDATED"
      "The channel ID for observing pull request updates.",
    ConstSpec.mk "PullRequestPubSubTopicMarkasread" "PullRequestPubSubTopic" "MARKASREAD"
      "The channel ID for marking an pull request as read.",
    ConstSpec.mk "PullRequestPubSubTopicHeadRef" "PullRequestPubSubTopic" "HEAD_REF"
      "The channel ID for observing head ref updates."],
  Decl.typeDecl "PullRequestReviewEvent" "string"
    "PullRequestReviewEvent represents the possible events to perform on a pull request review.",
  Decl.constDecl "The possible events to perform on a pull request review." [
    ConstSpec.mk "PullRequestReviewEventComment" "PullRequestReviewEvent" "COMMENT"
      "Submit general feedback without explicit approval.",
    ConstSpec.mk "PullRequestReviewEventApprove" "PullRequestReviewEvent" "APPROVE"
      "Submit feedback and approve merging these changes.",
    ConstSpec.mk "PullRequestReviewEventRequestChanges" "PullRequestReviewEvent" "REQUEST_CHANGES"
      "Submit feedback that must be addressed before merging.",
    ConstSpec.mk "PullRequestReviewEventDismiss" "PullRequestReviewEvent" "DISMISS"
      "Dismiss review so it now longer effects merging."],
  Decl.typeDecl "PullRequestReviewState" "string"
    "PullRequestReviewState represents the possible states of a pull request review.",
  Decl.constDecl "The possible states of a pull request review." [
    ConstSpec.mk "PullRequestReviewStatePending" "PullRequestReviewState" "PENDING"
      "A review that has not yet been submitted.",
    ConstSpec.mk "PullRequestReviewStateCommented" "PullRequestReviewState" "COMMENTED"
      "An informational review.",
    ConstSpec.mk "PullRequestReviewStateApproved" "PullRequestReviewState" "APPROVED"
      "A review allowing the pull request to merge.",
    ConstSpec.mk "PullRequestReviewStateChangesRequested" "PullRequestReviewState" "CHANGES_REQUESTED"
      "A review blocking the pull request from merging.",
    ConstSpec.mk "PullRequestReviewStateDismissed" "PullRequestReviewState" "DISMISSED"
      "A review that has been dismissed."],
  Decl.typeDecl "PullRequestState" "string"
    "PullRequestState represents the possible states of a pull request.",
  Decl.constDecl "The possible states of a pull request." [
    ConstSpec.mk "PullRequestStateOpen" "PullRequestState" "OPEN"
      "A pull request that is still open.",
    ConstSpec.mk "PullRequestStateClosed" "PullRequestState" "CLOSED"
      "A pull request that has been closed without being merged.",
    ConstSpec.mk "PullRequestStateMerged" "PullRequestState" "MERGED"
      "A pull request that has been closed by being merged."],
  Decl.typeDecl "ReactionContent" "string"
    "ReactionContent represents emojis that can be attached to Issues, Pull Requests and Comments.",
  Decl.constDecl "Emojis that can be attached to Issues, Pull Requests and Comments." [
    ConstSpec.mk "ReactionContentThumbsUp" "ReactionContent" "THUMBS_UP"
      "Represents the 👍 emoji.",
    ConstSpec.mk "ReactionContentThumbsDown" "ReactionContent" "THUMBS_DOWN"
      "Represents the 👎 emoji.",
    ConstSpec.mk "ReactionContentLaugh" "ReactionContent" "LAUGH"
      "Represents the 😄 emoji.",
    ConstSpec.mk "ReactionContentHooray" "ReactionContent" "HOORAY"
      "Represents the 🎉 emoji.",
    ConstSpec.mk "ReactionContentConfused" "ReactionContent" "CONFUSED"
      "Represents the 😕 emoji.",
    ConstSpec.mk "ReactionContentHeart" "ReactionContent" "HEART"
      "Represents the ❤️ emoji."],
  Decl.typeDecl "ReactionOrderField" "string"
    "ReactionOrderField represents a list of fields that reactions can be ordered by.",
  Decl.constDecl "A list of fields that reactions can be ordered by." [
    ConstSpec.mk "ReactionOrderFieldCreatedAt" "ReactionOrderField" "CREATED_AT"
      "Allows ordering a list of reactions by when they were created."],
  Decl.typeDecl "RepositoryAffiliation" "string"
    "RepositoryAffiliation represents the affiliation of a user to a repository.",
  Decl.constDecl "The affiliation of a user to a repository." [
    ConstSpec.mk "RepositoryAffiliationOwner" "RepositoryAffiliation" "OWNER"
      "Repositories that are owned by the authenticated user.",
    ConstSpec.mk "RepositoryAffiliationCollaborator" "RepositoryAffiliation" "COLLABORATOR"
      "Repositories that the user has been added to as a collaborator.",
    ConstSpec.mk "RepositoryAffiliationOrganizationMember" "RepositoryAffiliation" "ORGANIZATION_MEMBER"
      "Repositories that the user has access to through being a member of an organization. This includes every repository on every team that the user is on."],
  Decl.typeDecl "RepositoryCollaboratorAffiliation" "string"
    "RepositoryCollaboratorAffiliation represents the affiliation type between collaborator and repository.",
  Decl.constDecl "The affiliation type between collaborator and repository." [
    ConstSpec.mk "RepositoryCollaboratorAffiliationAll" "RepositoryCollaboratorAffiliation" "ALL"
      "All collaborators of the repository.",
    ConstSpec.mk "RepositoryCollaboratorAffiliationOutside" "RepositoryCollaboratorAffiliation" "OUTSIDE"
      "All outside collaborators of an organization-owned repository."],
  Decl.typeDecl "RepositoryLockReason" "string"
    "RepositoryLockReason represents the possible reasons a given repository could be in a locked state.",
  Decl.constDecl "The possible reasons a given repository could be in a locked state." [
    ConstSpec.mk "RepositoryLockReasonMoving" "RepositoryLockReason" "MOVING"
      "The repository is locked due to a move.",
    ConstSpec.mk "RepositoryLockReasonBilling" "RepositoryLockReason" "BILLING"
      "The repository is locked due to a billing related reason.",
    ConstSpec.mk "RepositoryLockReasonRename" "RepositoryLockReason" "RENAME"
      "The repository is locked due to a rename.",
    ConstSpec.mk "RepositoryLockReasonMigrating" "RepositoryLockReason" "MIGRATING"
      "The repository is locked due to a migration."],
  Decl.typeDecl "RepositoryOrderField" "string"
    "RepositoryOrderField represents properties by which repository connections can be ordered.",
  Decl.constDecl "Properties by which repository connections can be ordered." [
    ConstSpec.mk "RepositoryOrderFieldCreatedAt" "RepositoryOrderField" "CREATED_AT"
      "Order repositories by creation time.",
    ConstSpec.mk "RepositoryOrderFieldUpdatedAt" "RepositoryOrderField" "UPDATED_AT"
      "Order repositories by update time.",
    ConstSpec.mk "RepositoryOrderFieldPushedAt" "RepositoryOrderField" "PUSHED_AT"
      "Order repositories by push time.",
    ConstSpec.mk "RepositoryOrderFieldName" "RepositoryOrderField" "NAME"
      "Order repositories by name.",
    ConstSpec.mk "RepositoryOrderFieldStargazers" "RepositoryOrderField" "STARGAZERS"
      "Order repositories by number of stargazers."],
  Decl.typeDecl "RepositoryPermission" "string"
    "RepositoryPermission represents the access level to a repository.",
  Decl.constDecl "The access level to a repository." [
    ConstSpec.mk "RepositoryPermissionAdmin" "RepositoryPermission" "ADMIN"
      "Can read, clone, push, and add collaborators.",
    ConstSpec.mk "RepositoryPermissionWrite" "RepositoryPermission" "WRITE"
      "Can read, clone and push.",
    ConstSpec.mk "RepositoryPermissionRead" "RepositoryPermission" "READ"
      "Can read and clone."],
  Decl.typeDecl "RepositoryPrivacy" "string"
    "RepositoryPrivacy represents the privacy of a repository.",
  Decl.constDecl "The privacy of a repository." [
    ConstSpec.mk "RepositoryPrivacyPublic" "RepositoryPrivacy" "PUBLIC"
      "Public.",
    ConstSpec.mk "RepositoryPrivacyPrivate" "RepositoryPrivacy" "PRIVATE"
      "Private."],
  Decl.typeDecl "SearchType" "string"
    "SearchType represents represents the individual results of a search.",
  Decl.constDecl "Represents the individual results of a search." [
    ConstSpec.mk "SearchTypeIssue" "SearchType" "ISSUE"
      "Returns results matching issues in repositories.",
    ConstSpec.mk "SearchTypeRepository" "SearchType" "REPOSITORY"
      "Returns results matching repositories.",
    ConstSpec.mk "SearchTypeUser" "SearchType" "USER"
      "Returns results matching users on GitHub."],
  Decl.typeDecl "StarOrderField" "string"
    "StarOrderField represents properties by which star connections can be ordered.",
  Decl.constDecl "Properties by which star connections can be ordered." [
    ConstSpec.mk "StarOrderFieldStarredAt" "StarOrderField" "STARRED_AT"
      "Allows ordering a list of stars by when they were created."],
  Decl.typeDecl "StatusState" "string"
    "StatusState represents the possible commit status states.",
  Decl.constDecl "The possible commit status states." [
    ConstSpec.mk "StatusStateExpected" "StatusState" "EXPECTED"
      "Status is expected.",
    ConstSpec.mk "StatusStateError" "StatusState" "ERROR"
      "Status is errored.",
    ConstSpec.mk "StatusStateFailure" "StatusState" "FAILURE"
      "Status is failing.",
    ConstSpec.mk "StatusStatePending" "StatusState" "PENDING"
      "Status is pending.",
    ConstSpec.mk "StatusStateSuccess" "StatusState" "SUCCESS"
      "Status is successful."],
  Decl.typeDecl "SubscriptionState" "string"
    "SubscriptionState represents the possible states of a subscription.",
  Decl.constDecl "The possible states of a subscription." [
    ConstSpec.mk "SubscriptionStateUnsubscribed" "SubscriptionState" "UNSUBSCRIBED"
      "The User is only notified when particpating or @mentioned.",
    ConstSpec.mk "SubscriptionStateSubscribed" "SubscriptionState" "SUBSCRIBED"
      "The User is notified of all conversations.",
    ConstSpec.mk "SubscriptionStateIgnored" "SubscriptionState" "IGNORED"
      "The User is never notified."],
  Decl.typeDecl "TeamMemberRole" "string"
    "TeamMemberRole represents the possible team member roles; either 'maintainer' or 'member'.",
  Decl.constDecl "The possible team member roles; either 'maintainer' or 'member'." [
    ConstSpec.mk "TeamMemberRoleMaintainer" "TeamMemberRole" "MAINTAINER"
      "A team maintainer has permission to add and remove team members.",
    ConstSpec.mk "TeamMemberRoleMember" "TeamMemberRole" "MEMBER"
      "A team member has no administrative permissions on the team."],
  Decl.typeDecl "TeamMembershipType" "string"
    "TeamMembershipType represents defines which types of team members are included in the returned list. Can be one of IMMEDIATE, CHILD_TEAM or ALL.",
  Decl.constDecl "Defines which types of team members are included in the returned list. Can be one of IMMEDIATE, CHILD_TEAM or ALL." [
    ConstSpec.mk "TeamMembershipTypeImmediate" "TeamMembershipType" "IMMEDIATE"
      "Includes only immediate members of the team.",
    ConstSpec.mk "TeamMembershipTypeChildTeam" "TeamMembershipType" "CHILD_TEAM"
      "Includes only child team members for the team.",
    ConstSpec.mk "TeamMembershipTypeAll" "TeamMembershipType" "ALL"
      "Includes immediate and child team members for the team."],
  Decl.typeDecl "TeamOrderField" "string"
    "TeamOrderField represents properties by which team connections can be ordered.",
  Decl.constDecl "Properties by which team connections can be ordered." [
    ConstSpec.mk "TeamOrderFieldName" "TeamOrderField" "NAME"
      "Allows ordering a list of teams by name."],
  Decl.typeDecl "TeamPrivacy" "string"
    "TeamPrivacy represents the possible team privacy values.",
  Decl.constDecl "The possible team privacy values." [
    ConstSpec.mk "TeamPrivacySecret" "TeamPrivacy" "SECRET"
      "A secret team can only be seen by its members.",
    ConstSpec.mk "TeamPrivacyVisible" "TeamPrivacy" "VISIBLE"
      "A visible team can be seen and @mentioned by every member of the organization."],
  Decl.typeDecl "TeamRepositoryOrderField" "string"
    "TeamRepositoryOrderField represents properties by which team repository connections can be ordered.",
  Decl.constDecl "Properties by which team repository connections can be ordered." [
    ConstSpec.mk "TeamRepositoryOrderFieldCreatedAt" "TeamRepositoryOrderField" "CREATED_AT"
      "Order repositories by creation time.",
    ConstSpec.mk "TeamRepositoryOrderFieldUpdatedAt" "TeamRepositoryOrderField" "UPDATED_AT"
      "Order repositories by update time.",
    ConstSpec.mk "TeamRepositoryOrderFieldPushedAt" "TeamRepositoryOrderField" "PUSHED_AT"
      "Order repositories by push time.",
    ConstSpec.mk "TeamRepositoryOrderFieldName" "TeamRepositoryOrderField" "NAME"
      "Order repositories by name.",
    ConstSpec.mk "TeamRepositoryOrderFieldPermission" "TeamRepositoryOrderField" "PERMISSION"
      "Order repositories by permission.",
    ConstSpec.mk "TeamRepositoryOrderFieldStargazers" "TeamRepositoryOrderField" "STARGAZERS"
      "Order repositories by number of stargazers."],
  Decl.typeDecl "TeamRole" "string"
    "TeamRole represents the role of a user on a team.",
  Decl.constDecl "The role of a user on a team." [
    ConstSpec.mk "TeamRoleAdmin" "TeamRole" "ADMIN"
      "User has admin rights on the team.",
    ConstSpec.mk "TeamRoleMember" "TeamRole" "MEMBER"
      "User is a member of the team."],
  Decl.typeDecl "TopicSuggestionDeclineReason" "string"
    "TopicSuggestionDeclineReason represents reason that the suggested topic is declined.",
  Decl.constDecl "Reason that the suggested topic is declined." [
    ConstSpec.mk "TopicSuggestionDeclineReasonNotRelevant" "TopicSuggestionDeclineReason" "NOT_RELEVANT"
      "The suggested topic is not relevant to the repository.",
    ConstSpec.mk "TopicSuggestionDeclineReasonTooSpecific" "TopicSuggestionDeclineReason" "TOO_SPECIFIC"
      "The suggested topic is too specific for the repository (e.g. #ruby-on-rails-version-4-2-1).",
    ConstSpec.mk "TopicSuggestionDeclineReasonPersonalPreference" "TopicSuggestionDeclineReason" "PERSONAL_PREFERENCE"
      "The viewer does not like the suggested topic.",
    ConstSpec.mk "TopicSuggestionDeclineReasonTooGeneral" "TopicSuggestionDeclineReason" "TOO_GENERAL"
      "The suggested topic is too general for the repository."]]

/-! ## The registry read off the declarations -/

/-- Names of the types a declaration list declares, in order. -/
def typeNames (ds : List Decl) : List String :=
  ds.filterMap fun d =>
    match d with
    | .typeDecl n _ _ => some n
    | _ => none

/-- All constant lines of a declaration list, in order. -/
def constSpecs (ds : List Decl) : List ConstSpec :=
  ds.flatMap fun d =>
    match d with
    | .constDecl _ specs => specs
    | _ => []

/-- A member of an enumeration: the constant identifier, the string it is
bound to, and its comment. -/
structure EnumMember where
  name : String
  value : String
  doc : String
  deriving DecidableEq, Repr

/-- An enumeration type: its name and its members in declaration order. -/
structure EnumType where
  name : String
  members : List EnumMember
  deriving DecidableEq, Repr

/-- The constants of `ds` whose declared type is `t`, as members. -/
def membersOf (ds : List Decl) (t : String) : List EnumMember :=
  ((constSpecs ds).filter fun c => c.typ == t).map fun c => ⟨c.name, c.value, c.doc⟩

/-- The enumeration named `t` as `enum.go` declares it. -/
def enumOf (t : String) : EnumType := ⟨t, membersOf enumGo t⟩

/-- Every enumeration type of `enum.go` with its members. -/
def registry : List EnumType := (typeNames enumGo).map enumOf

/-- Wire values of an enumeration, in declaration order. -/
def EnumType.wireValues (T : EnumType) : List String := T.members.map (·.value)

/-- Symbolic names of an enumeration, in declaration order. -/
def EnumType.symbolicNames (T : EnumType) : List String := T.members.map (·.name)

/-- Go type `IssueState`. -/
def IssueState : EnumType := enumOf "IssueState"

/-- Go type `PullRequestState`. -/
def PullRequestState : EnumType := enumOf "PullRequestState"

/-- Go type `TeamMembershipType`. -/
def TeamMembershipType : EnumType := enumOf "TeamMembershipType"

/-- Whether a declaration introduces a variable. -/
def Decl.isVar : Decl → Bool
  | .varDecl _ => true
  | _ => false

/-- Whether a declaration introduces a function. -/
def Decl.isFunc : Decl → Bool
  | .funcDecl _ => true
  | _ => false

/-- Underlying types of the declared types, in order. -/
def underlyingTypes (ds : List Decl) : List String :=
  ds.filterMap fun d =>
    match d with
    | .typeDecl _ u _ => some u
    | _ => none

/-- Number of constants over all enumerations of a registry. -/
def totalMembers (r : List EnumType) : Nat := (r.map fun T => T.members.length).sum

/-- Two counts agree up to a factor of two in either direction. -/
def roughly (stated actual : Nat) : Prop := stated ≤ 2 * actual ∧ actual ≤ 2 * stated

instance (stated actual : Nat) : Decidable (roughly stated actual) := by
  unfold roughly; infer_instance

/-! ## Lookup operations -/

/-- The one failure of a lookup. -/
inductive EnumError where
  | UnknownEnumValue
  deriving DecidableEq, Repr

deriving instance DecidableEq for Except

/-- Modelled from the spec: `enum.go` holds declarations only and no validation
function.  Validating a string against an enumeration type is the membership
test over the member set: the first member whose wire value is exactly the
string is returned by symbolic name, and a string that matches no wire value
fails with `UnknownEnumValue`. -/
def validate (T : EnumType) (s : String) : Except EnumError String :=
  match T.members.find? (fun m => m.value == s) with
  | some m => .ok m.name
  | none => .error .UnknownEnumValue

/-- Modelled from the spec: `enum.go` holds no accessor function.  Given a
symbolic name, retrieve the wire value of the member of that name. -/
def wireValue (T : EnumType) (n : String) : Option String :=
  (T.members.find? (fun m => m.name == n)).map (·.value)

/-! ## The naming rule of the generated identifiers -/

/-- The pieces of a character list between its underscores. -/
def splitUnderscore : List Char → List (List Char)
  | [] => [[]]
  | c :: cs =>
    if c = '_' then [] :: splitUnderscore cs
    else
      match splitUnderscore cs with
      | [] => [[c]]
      | p :: ps => (c :: p) :: ps

/-- A piece written with an upper-case first letter followed by lower-case
letters. -/
def capitalized : List Char → List Char
  | [] => []
  | c :: cs => c.toUpper :: cs.map Char.toLower

/-- The identifier the naming rule assigns to a wire value of a type: the type
name followed by the capitalized pieces of the wire value, split at
underscores. -/
def camelName (typ wire : String) : String :=
  ⟨typ.data ++ (splitUnderscore wire.data).flatMap capitalized⟩

/-! ## Properties of the lookup on an arbitrary table -/

theorem validate_error_iff (T : EnumType) (s : String) :
    validate T s = .error .UnknownEnumValue ↔ s ∉ T.wireValues := by
  unfold validate EnumType.wireValues
  cases h : T.members.find? (fun m => m.value == s) with
  | none =>
    simp only [List.find?_eq_none] at h
    simp only [List.mem_map, not_exists, not_and, true_iff]
    intro m hm hv
    exact absurd (by simpa using hv) (h m hm)
  | some m =>
    have hm := List.mem_of_find?_eq_some h
    have hv := List.find?_some h
    simp only [List.mem_map, not_exists, not_and, false_iff, not_forall, not_not,
      reduceCtorEq]
    exact ⟨m, hm, by simpa using hv⟩

theorem validate_accepts_iff (T : EnumType) (s : String) :
    (∃ n, validate T s = .ok n) ↔ s ∈ T.wireValues := by
  have herr := validate_error_iff T s
  constructor
  · rintro ⟨n, hn⟩
    by_contra hs
    rw [herr.mpr hs] at hn
    cases hn
  · intro hs
    cases hv : validate T s with
    | ok n => exact ⟨n, rfl⟩
    | error e =>
      cases e
      exact absurd hs (herr.mp hv)

/-! ## Wire values -/

/-- C1: within every enumeration type declared in `enum.go`, the string
literals of its constants are pairwise distinct. -/
theorem wireValues_nodup (T : EnumType) (hT : T ∈ registry) : T.wireValues.Nodup := by
  revert T
  decide

theorem wireValues_nodup_witness :
    PullRequestState ∈ registry ∧ PullRequestState.wireValues.Nodup :=
  ⟨by decide, wireValues_nodup PullRequestState (by decide)⟩

/-- C2: round trip.  For every enumeration type of `enum.go` and every member
of it, looking the member up by symbolic name gives its wire value, and
validating that wire value against the type succeeds with the member's own
symbolic name. -/
theorem validate_wireValue_roundtrip (T : EnumType) (hT : T ∈ registry)
    (m : EnumMember) (hm : m ∈ T.members) :
    wireValue T m.name = some m.value ∧ validate T m.value = .ok m.name := by
  revert m
  revert T
  decide

theorem validate_wireValue_roundtrip_witness :
    wireValue PullRequestState "PullRequestStateMerged" = some "MERGED" ∧
      validate PullRequestState "MERGED" = .ok "PullRequestStateMerged" :=
  validate_wireValue_roundtrip PullRequestState (by decide)
    ⟨"PullRequestStateMerged", "MERGED", "A pull request that has been closed by being merged."⟩
    (by decide)

/-- C3: a string is accepted as a value of an enumeration type exactly when it
is one of the type's wire values; any other string fails with
`UnknownEnumValue` and yields no member. -/
theorem validate_unknown (T : EnumType) (s : String) :
    ((∃ n, validate T s = .ok n) ↔ s ∈ T.wireValues) ∧
      (s ∉ T.wireValues →
        validate T s = .error .UnknownEnumValue ∧ ∀ n, validate T s ≠ .ok n) := by
  have herr := validate_error_iff T s
  refine ⟨validate_accepts_iff T s, fun hs => ⟨herr.mpr hs, fun n hn => ?_⟩⟩
  rw [herr.mpr hs] at hn
  cases hn

theorem validate_unknown_witness :
    IssueState ∈ registry ∧ "BOGUS" ∉ IssueState.wireValues ∧
      validate IssueState "BOGUS" = .error .UnknownEnumValue ∧
      ∀ n, validate IssueState "BOGUS" ≠ .ok n :=
  ⟨by decide, by decide, (validate_unknown IssueState "BOGUS").2 (by decide)⟩

/-- C4: against `PullRequestState`, "MERGED" validates to
`PullRequestStateMerged`, the member documented as closed by being merged;
"OPEN" validates; "DRAFT" fails; the wire values are exactly OPEN, CLOSED and
MERGED. -/
theorem pullRequestState_scenario :
    PullRequestState ∈ registry ∧
      validate PullRequestState "MERGED" = .ok "PullRequestStateMerged" ∧
      (⟨"PullRequestStateMerged", "MERGED",
          "A pull request that has been closed by being merged."⟩ : EnumMember)
        ∈ PullRequestState.members ∧
      validate PullRequestState "OPEN" = .ok "PullRequestStateOpen" ∧
      validate PullRequestState "DRAFT" = .error .UnknownEnumValue ∧
      PullRequestState.wireValues = ["OPEN", "CLOSED", "MERGED"] := by
  decide

/-- C5: `IssueState` has exactly two members, with wire values "OPEN" and
"CLOSED". -/
theorem issueState_members :
    IssueState ∈ registry ∧ IssueState.members.length = 2 ∧
      IssueState.wireValues = ["OPEN", "CLOSED"] := by
  decide

/-- C6: membership is exact string equality.  For every enumeration type of
`enum.go` and every wire value of it, the wire value itself is accepted and its
lower-cased form is rejected. -/
theorem validate_case_sensitive (T : EnumType) (hT : T ∈ registry)
    (w : String) (hw : w ∈ T.wireValues) :
    (∃ n, validate T w = .ok n) ∧
      validate T w.toLower = .error .UnknownEnumValue := by
  refine ⟨(validate_accepts_iff T w).mpr hw, ?_⟩
  revert w
  revert T
  simp only [String.toLower, String.map_eq]
  decide

theorem validate_case_sensitive_witness :
    validate IssueState "OPEN" = .ok "IssueStateOpen" ∧
      validate IssueState "open" = .error .UnknownEnumValue := by
  have h := (validate_case_sensitive IssueState (by decide) "OPEN" (by decide)).2
  simp only [String.toLower, String.map_eq] at h
  exact ⟨by decide, h⟩

/-! ## Names, declaration kinds and counts -/

set_option maxRecDepth 100000

/-- C7: no two declared types of `enum.go` share a name, and within every
enumeration type no two constants share an identifier. -/
theorem names_unique :
    (typeNames enumGo).Nodup ∧ (registry.map (·.name)).Nodup ∧
      ∀ T ∈ registry, T.symbolicNames.Nodup := by
  decide

theorem names_unique_witness :
    IssueState ∈ registry ∧ IssueState.symbolicNames.Nodup :=
  ⟨by decide, names_unique.2.2 IssueState (by decide)⟩

/-- C8: the wire values of `TeamMembershipType` are exactly IMMEDIATE,
CHILD_TEAM and ALL, the three values its doc comment lists. -/
theorem teamMembershipType_wireValues :
    Decl.typeDecl "TeamMembershipType" "string"
        ("TeamMembershipType represents defines which types of team members are " ++
          "included in the returned list. Can be one of IMMEDIATE, CHILD_TEAM or ALL.")
        ∈ enumGo ∧
      TeamMembershipType ∈ registry ∧
      TeamMembershipType.wireValues = ["IMMEDIATE", "CHILD_TEAM", "ALL"] ∧
      ∀ s, s ∈ TeamMembershipType.wireValues ↔
        s = "IMMEDIATE" ∨ s = "CHILD_TEAM" ∨ s = "ALL" := by
  have hv : TeamMembershipType.wireValues = ["IMMEDIATE", "CHILD_TEAM", "ALL"] := by
    decide
  refine ⟨by decide, by decide, hv, fun s => ?_⟩
  rw [hv]
  simp

/-- C9: `enum.go` declares no variable and no function.  Each of its
declarations is a type with underlying type `string` or a group of constants,
and each constant is typed by a type the file declares. -/
theorem enumGo_constants_only :
    enumGo.filter Decl.isVar = [] ∧ enumGo.filter Decl.isFunc = [] ∧
      (∀ u ∈ underlyingTypes enumGo, u = "string") ∧
      ∀ c ∈ constSpecs enumGo, c.typ ∈ typeNames enumGo := by
  decide

/-- C10, as the code has it: `enum.go` declares exactly 42 enumeration types
and exactly 146 constants, and every constant is a member of exactly one
enumeration of the registry. -/
theorem registry_counts :
    registry.length = 42 ∧ (constSpecs enumGo).length = 146 ∧
      totalMembers registry = 146 := by
  decide

/-- C10, as stated: the number of constants is not 350 even up to a factor of
two. -/
theorem constants_not_roughly_350 : ¬ roughly 350 (constSpecs enumGo).length := by
  decide

/-! ## Shape of identifiers and wire values -/

/-- C11: the identifier of every constant of `enum.go` is its type name
followed by its wire value split at underscores, each piece written as an
upper-case first letter followed by lower-case letters. -/
theorem name_eq_camelName (c : ConstSpec) (hc : c ∈ constSpecs enumGo) :
    c.name = camelName c.typ c.value := by
  revert c
  decide

theorem name_eq_camelName_witness :
    camelName "CommentAuthorAssociation" "FIRST_TIME_CONTRIBUTOR" =
        "CommentAuthorAssociationFirstTimeContributor" ∧
      camelName "GitSignatureState" "GPGVERIFY_UNAVAILABLE" =
        "GitSignatureStateGpgverifyUnavailable" :=
  ⟨(name_eq_camelName
      ⟨"CommentAuthorAssociationFirstTimeContributor", "CommentAuthorAssociation",
        "FIRST_TIME_CONTRIBUTOR", "Author has not previously committed to the repository."⟩
      (by decide)).symm,
    (name_eq_camelName
      ⟨"GitSignatureStateGpgverifyUnavailable", "GitSignatureState", "GPGVERIFY_UNAVAILABLE",
        "Internal error - the GPG verification service is unavailable at the moment."⟩
      (by decide)).symm⟩

/-- C12: every wire value of `enum.go` is a non-empty string of the letters
A-Z and the underscore that neither starts nor ends with an underscore and has
no two underscores in a row. -/
theorem wireValue_shape (c : ConstSpec) (hc : c ∈ constSpecs enumGo) :
    c.value ≠ "" ∧
      (∀ ch ∈ c.value.data, ('A' ≤ ch ∧ ch ≤ 'Z') ∨ ch = '_') ∧
      c.value.data.head? ≠ some '_' ∧
      c.value.data.getLast? ≠ some '_' ∧
      ¬ ['_', '_'] <:+: c.value.data := by
  revert c
  decide

theorem wireValue_shape_witness :
    "CHILD_TEAM" ≠ "" ∧
      (∀ ch ∈ "CHILD_TEAM".data, ('A' ≤ ch ∧ ch ≤ 'Z') ∨ ch = '_') ∧
      "CHILD_TEAM".data.head? ≠ some '_' ∧
      "CHILD_TEAM".data.getLast? ≠ some '_' ∧
      ¬ ['_', '_'] <:+: "CHILD_TEAM".data :=
  wireValue_shape
    ⟨"TeamMembershipTypeChildTeam", "TeamMembershipType", "CHILD_TEAM",
      "Includes only child team members for the team."⟩
    (by decide)

end Githubql
